import Mathlib

/-!
# Verification of the codi commander–worker IPC subsystem

Shallow embedding of `src/codi-rs/src/orchestrate/ipc/client.rs` and
`src/codi-rs/src/orchestrate/ipc/server.rs`.

The message vocabularies, `WorkerConfig`, `WorkspaceInfo` and
`ToolConfirmation` live in `protocol.rs` / `types.rs`, which are not part of
the sources at hand; their shapes are modelled from the spec (§3, §6).  The
client and server logic below is translated directly from `client.rs` and
`server.rs`.

Concurrency is embedded by explicit state passing: the mutable fields behind
the client's and server's mutexes become fields of a state record, each
`async fn` becomes a pure function from state (plus the outcomes of its I/O
suspension points, passed as parameters) to result, new state and the list of
frames written.  Resolving a pending permission's oneshot channel is recorded
in a `resolutions` ghost list.  The server's delivery channel is modelled as
the ever-growing `delivered` list (receiver alive, channel open).
-/

namespace Codi

/-- Modelled from the spec: `PermissionResult` is a tagged variant over
`{Approve, Deny{reason}, Abort}` (protocol.rs is not among the sources). -/
inductive PermissionResult where
  | Approve : PermissionResult
  | Deny (reason : String) : PermissionResult
  | Abort : PermissionResult
deriving DecidableEq, Repr

/-- Modelled from the spec: worker→commander wire messages.  Every message
carries a message id and a timestamp plus tag-specific fields (spec §3, §6).
The structured `input` payload of `PermissionRequest` is kept opaque as a
`String`. -/
inductive WorkerMessage where
  | Handshake (id : String) (timestamp : Nat) (worker_id : String)
      (workspace_path : String) (branch : String) (task : String)
      (model : String) (provider : String) : WorkerMessage
  | PermissionRequest (id : String) (timestamp : Nat) (request_id : String)
      (tool_name : String) (input : String) (is_dangerous : Bool)
      (danger_reason : Option String) : WorkerMessage
  | StatusUpdate (id : String) (timestamp : Nat) (status : String)
      (token_usage : Nat) : WorkerMessage
  | TaskComplete (id : String) (timestamp : Nat) (result : String) : WorkerMessage
  | TaskError (id : String) (timestamp : Nat) (message : String)
      (recoverable : Bool) : WorkerMessage
  | Log (id : String) (timestamp : Nat) (level : String) (message : String) : WorkerMessage
  | Pong (id : String) (timestamp : Nat) : WorkerMessage
deriving DecidableEq, Repr

/-- Modelled from the spec: commander→worker wire messages (spec §3, §6). -/
inductive CommanderMessage where
  | HandshakeAck (id : String) (timestamp : Nat) (accepted : Bool)
      (auto_approve : List String) (dangerous_patterns : List String)
      (timeout_ms : Nat) (reason : Option String) : CommanderMessage
  | PermissionResponse (id : String) (timestamp : Nat) (request_id : String)
      (result : PermissionResult) : CommanderMessage
  | InjectContext (id : String) (timestamp : Nat) (context : String) : CommanderMessage
  | Cancel (id : String) (timestamp : Nat) (reason : Option String) : CommanderMessage
  | Ping (id : String) (timestamp : Nat) : CommanderMessage
deriving DecidableEq, Repr

/-- Client-observed handshake acknowledgement (struct `HandshakeAck` in
client.rs): accepted flag, policy lists, timeout and optional reason. -/
structure HandshakeAck where
  accepted : Bool
  auto_approve : List String
  dangerous_patterns : List String
  timeout_ms : Nat
  reason : Option String
deriving DecidableEq, Repr

/-- Modelled from the spec: `WorkerConfig` is supplied by the orchestration
collaborator; the client reads its task/model/provider and the local policy
defaults `auto_approve`, `dangerous_patterns`, `timeout_ms` (types.rs is not
among the sources). -/
structure WorkerConfig where
  task : String
  model : String
  provider : String
  auto_approve : List String
  dangerous_patterns : List String
  timeout_ms : Nat
deriving DecidableEq, Repr

/-- Modelled from the spec: `WorkspaceInfo` carries a kind tag (e.g. "git
worktree") plus path/branch/base-branch. -/
inductive WorkspaceInfo where
  | GitWorktree (path : String) (branch : String) (base_branch : String) : WorkspaceInfo
deriving DecidableEq, Repr

def WorkspaceInfo.path : WorkspaceInfo → String
  | .GitWorktree p _ _ => p

def WorkspaceInfo.branch : WorkspaceInfo → String
  | .GitWorktree _ b _ => b

/-- Modelled from the spec: `ToolConfirmation` = `{tool_name, input,
is_dangerous, danger_reason?}`, produced by the agent loop and consumed by
`request_permission`. -/
structure ToolConfirmation where
  tool_name : String
  input : String
  is_dangerous : Bool
  danger_reason : Option String
deriving DecidableEq, Repr

/-- `IpcClientError` from client.rs.  I/O errors keep only a context string. -/
inductive IpcClientError where
  | Io (context : String) : IpcClientError
  | Serialization (context : String) : IpcClientError
  | NotConnected : IpcClientError
  | ConnectionFailed (reason : String) : IpcClientError
  | HandshakeFailed (reason : String) : IpcClientError
  | ChannelClosed : IpcClientError
  | PermissionTimeout : IpcClientError
  | Cancelled : IpcClientError
deriving DecidableEq, Repr

/-- The mutable state of an `IpcClient` (client.rs): whether the writer half
is present (`connected`), the pending-permission table (as the list of
registered request ids — each entry stands for a live oneshot completion
slot), the cancellation flag, and the single handshake-ack slot.
`resolutions` is a ghost log of every value sent into a pending request's
completion slot, recording how each request was resolved. -/
structure IpcClientState where
  worker_id : String
  connected : Bool
  pending : List String
  cancelled : Bool
  handshakeAck : Option HandshakeAck
  resolutions : List (String × PermissionResult)
deriving DecidableEq, Repr

/-- `IpcClient::handle_commander_message` (client.rs lines 165–213): dispatch
one decoded commander frame against the shared state.
  * `HandshakeAck` overwrites the ack slot;
  * `PermissionResponse` removes the request id from the pending table and
    resolves its slot with the carried result (dropped when the id is absent);
  * `Cancel` sets the cancellation flag, then drains the pending table,
    resolving every entry to `Abort`;
  * `Ping` and all other tags have no state effect. -/
def handle_commander_message (msg : CommanderMessage) (st : IpcClientState) :
    IpcClientState :=
  match msg with
  | .HandshakeAck _ _ accepted auto_approve dangerous_patterns timeout_ms reason =>
      { st with
        handshakeAck :=
          some ⟨accepted, auto_approve, dangerous_patterns, timeout_ms, reason⟩ }
  | .PermissionResponse _ _ request_id result =>
      if st.pending.contains request_id then
        { st with pending := st.pending.erase request_id,
                  resolutions := st.resolutions ++ [(request_id, result)] }
      else st
  | .Cancel _ _ _ =>
      { st with
        cancelled := true
        pending := []
        resolutions :=
          st.resolutions ++ st.pending.map (fun rid => (rid, .Abort)) }
  | .InjectContext _ _ _ => st
  | .Ping _ _ => st

/-- `IpcClient::handshake` (client.rs lines 216–277).  Parameters `msgId`,
`ts` stand for `generate_message_id()` / `now()`, and `writeOk` for the
outcome of writing and flushing the handshake frame.  Returns the result, the
successor state and the frames written.  After the send, the ack slot is
`take`n; a present rejected ack fails with `HandshakeFailed`, a present
accepted ack is merged against `config` (empty list / zero timeout falls back
to the local value), an absent ack yields a fully local accepted ack. -/
def handshake (st : IpcClientState) (config : WorkerConfig)
    (workspace : WorkspaceInfo) (msgId : String) (ts : Nat) (writeOk : Bool) :
    Except IpcClientError HandshakeAck × IpcClientState × List WorkerMessage :=
  if st.connected = false then
    (.error .NotConnected, st, [])
  else
    let msg := WorkerMessage.Handshake msgId ts st.worker_id
      workspace.path workspace.branch config.task config.model config.provider
    if writeOk = false then
      (.error (.Io "write"), st, [])
    else
      let ack := st.handshakeAck
      let st' := { st with handshakeAck := none }
      match ack with
      | some a =>
          if a.accepted = false then
            (.error (.HandshakeFailed (a.reason.getD "Handshake rejected")),
             st', [msg])
          else
            (.ok
              { accepted := true
                auto_approve :=
                  if a.auto_approve.isEmpty then config.auto_approve
                  else a.auto_approve
                dangerous_patterns :=
                  if a.dangerous_patterns.isEmpty then config.dangerous_patterns
                  else a.dangerous_patterns
                timeout_ms :=
                  if a.timeout_ms = 0 then config.timeout_ms else a.timeout_ms
                reason := none },
             st', [msg])
      | none =>
          (.ok
            { accepted := true
              auto_approve := config.auto_approve
              dangerous_patterns := config.dangerous_patterns
              timeout_ms := config.timeout_ms
              reason := none },
           st', [msg])

/-- The fixed bound, in seconds, that `request_permission` waits for a
response: `Duration::from_secs(300)` at client.rs line 311. -/
def request_permission_timeout_secs : Nat := 300

/-- Outcome of the bounded wait on the oneshot receiver in
`request_permission` (client.rs line 311): the slot was resolved with a
result, the `request_permission_timeout_secs` bound elapsed unresolved, or
the completion channel closed without a value. -/
inductive WaitOutcome where
  | resolved (r : PermissionResult) : WaitOutcome
  | elapsed : WaitOutcome
  | closed : WaitOutcome
deriving DecidableEq, Repr

/-- `IpcClient::request_permission` (client.rs lines 280–316).  Fails with
`Cancelled` before doing anything else when the cancellation flag is set,
then with `NotConnected` when the writer is absent.  Otherwise registers a
completion slot under the fresh `request_id` (`freshId`), writes the
`PermissionRequest` frame (`writeOk` is that write's outcome), and maps the
bounded wait's outcome: resolved ↦ the result, bound elapsed ↦
`PermissionTimeout`, channel closed ↦ `ChannelClosed`. -/
def request_permission (st : IpcClientState) (confirmation : ToolConfirmation)
    (msgId freshId : String) (ts : Nat) (writeOk : Bool)
    (outcome : WaitOutcome) :
    Except IpcClientError PermissionResult × IpcClientState × List WorkerMessage :=
  if st.cancelled then
    (.error .Cancelled, st, [])
  else if st.connected = false then
    (.error .NotConnected, st, [])
  else
    let msg := WorkerMessage.PermissionRequest msgId ts freshId
      confirmation.tool_name confirmation.input confirmation.is_dangerous
      confirmation.danger_reason
    let st' := { st with pending := st.pending.insert freshId }
    if writeOk = false then
      (.error (.Io "write"), st', [])
    else
      match outcome with
      | .resolved r => (.ok r, st', [msg])
      | .elapsed => (.error .PermissionTimeout, st', [msg])
      | .closed => (.error .ChannelClosed, st', [msg])

/-- `IpcClient::is_cancelled` (client.rs lines 379–382). -/
def is_cancelled (st : IpcClientState) : Bool := st.cancelled

/-! ## Server side (`server.rs`) -/

/-- `IpcError` as server.rs constructs it (`error.rs` itself is not among the
sources; the variants and their payloads are those used at server.rs call
sites, with `from_io_error(context, e)` keeping only the context string). -/
inductive IpcError where
  | NotStarted : IpcError
  | InvalidMessage (detail : String) : IpcError
  | InvalidHandshake : IpcError
  | WorkerNotConnected (worker_id : String) : IpcError
  | Io (context : String) : IpcError
deriving DecidableEq, Repr

/-- The mutable state of an `IpcServer` (server.rs): whether `start()` bound
the listener, the registry of connected workers (worker id ↦ a token for the
exclusively-owned write half), and the delivery channel's content so far as a
ghost list of `(worker_id, message)` pairs (`incoming_tx`; the receiver is
modelled as alive, so every `send` on the channel is appended). -/
structure IpcServerState where
  started : Bool
  workers : List (String × Nat)
  delivered : List (String × WorkerMessage)
deriving DecidableEq, Repr

/-- `HashMap::insert`: bind `k` to `v`, overwriting any prior entry. -/
def insertWorker (m : List (String × Nat)) (k : String) (v : Nat) :
    List (String × Nat) :=
  (k, v) :: m.filter (fun p => p.1 != k)

/-- `WorkerMessage::Handshake { .. }` pattern test used by `accept`. -/
def isHandshakeMsg : WorkerMessage → Bool
  | .Handshake _ _ _ _ _ _ _ _ => true
  | _ => false

/-- Worker id bound in the `Handshake` pattern (meaningful only when
`isHandshakeMsg` holds). -/
def handshakeWorkerId : WorkerMessage → String
  | .Handshake _ _ wid _ _ _ _ _ => wid
  | _ => ""

/-- `IpcServer::accept` (server.rs lines 99–149).  Fails with `NotStarted`
when the listener is absent.  Otherwise one line is read from the fresh
connection; `firstFrame` is its decode result (`none` = decode failure, which
yields `InvalidMessage`).  A decoded non-`Handshake` frame is rejected with
`InvalidHandshake`.  On a `Handshake`, the write half (token `h`) is
registered under `worker_id` — overwriting any prior entry — and the
handshake message is published on the delivery channel before the worker id
is returned. -/
def accept (st : IpcServerState) (firstFrame : Option WorkerMessage)
    (h : Nat) : Except IpcError String × IpcServerState :=
  if st.started = false then
    (.error .NotStarted, st)
  else
    match firstFrame with
    | none => (.error (.InvalidMessage "handshake decode failed"), st)
    | some msg =>
        if isHandshakeMsg msg then
          let wid := handshakeWorkerId msg
          (.ok wid,
           { st with
             workers := insertWorker st.workers wid h
             delivered := st.delivered ++ [(wid, msg)] })
        else
          (.error .InvalidHandshake, st)

/-- One iteration's input to the server's per-connection read loop: a line
arrived (with its decode result; `none` = decode failure) or the read failed
with an I/O error.  End of the event list is EOF (`read_line` returning 0). -/
inductive ReadEvent where
  | line (decoded : Option WorkerMessage) : ReadEvent
  | ioError : ReadEvent
deriving DecidableEq, Repr

/-- `IpcServer::read_worker_messages` (server.rs lines 152–191): read
newline-delimited frames until EOF or I/O error; a successfully decoded frame
is published on the delivery channel tagged with the worker id; a decode
failure is logged and skipped, the loop continuing.  On termination the
worker is removed from the registry.  (The delivery channel's receiver is
modelled as alive, so `tx.send` never fails.) -/
def read_worker_messages (worker_id : String) (events : List ReadEvent)
    (st : IpcServerState) : IpcServerState :=
  match events with
  | [] =>
      { st with workers := st.workers.filter (fun p => p.1 != worker_id) }
  | .ioError :: _ =>
      { st with workers := st.workers.filter (fun p => p.1 != worker_id) }
  | .line none :: rest =>
      read_worker_messages worker_id rest st
  | .line (some msg) :: rest =>
      read_worker_messages worker_id rest
        { st with delivered := st.delivered ++ [(worker_id, msg)] }

/-- `IpcServer::send` (server.rs lines 194–211): look the worker up in the
registry, failing with `WorkerNotConnected` when absent; otherwise encode the
frame and write it under the connection's lock, then flush.  `writeOk` /
`flushOk` are the outcomes of those two awaits; either failure surfaces as an
I/O error.  The registry is never modified. -/
def send (st : IpcServerState) (worker_id : String) (_msg : CommanderMessage)
    (writeOk flushOk : Bool) : Except IpcError Unit × IpcServerState :=
  match st.workers.lookup worker_id with
  | none => (.error (.WorkerNotConnected worker_id), st)
  | some _ =>
      if writeOk = false then
        (.error (.Io "sending message"), st)
      else if flushOk = false then
        (.error (.Io "flushing writer"), st)
      else
        (.ok (), st)

/-- `IpcServer::broadcast` (server.rs lines 214–227): encode once, then write
the frame to every registered worker in turn; a failed write (`writeOk id =
false`) is logged and skipped.  Returns the call's result together with the
ids written to in order (every registered worker) and the ids whose write
failed.  Encoding is modelled from the spec as total (§4.2 gives `encode` no
failure mode), so the call always returns success.  `broadcastLoop` is the
`for` body: a failed write is recorded and the iteration moves on. -/
def broadcastLoop (ws : List (String × Nat)) (writeOk : String → Bool)
    (attempted failed : List String) : List String × List String :=
  match ws with
  | [] => (attempted, failed)
  | (wid, _) :: rest =>
      if writeOk wid then
        broadcastLoop rest writeOk (attempted ++ [wid]) failed
      else
        broadcastLoop rest writeOk (attempted ++ [wid]) (failed ++ [wid])

def broadcast (st : IpcServerState) (_msg : CommanderMessage)
    (writeOk : String → Bool) :
    Except IpcError Unit × List String × List String :=
  let (attempted, failed) := broadcastLoop st.workers writeOk [] []
  (.ok (), attempted, failed)

/-- `IpcServer::is_connected` (server.rs lines 230–233). -/
def is_connected (st : IpcServerState) (worker_id : String) : Bool :=
  (st.workers.lookup worker_id).isSome

/-- `IpcServer::connected_workers` (server.rs lines 236–239). -/
def connected_workers (st : IpcServerState) : List String :=
  st.workers.map (fun p => p.1)

/-! ## Helper lemmas -/

theorem lookup_filter_ne_self (l : List (String × Nat)) (k : String) :
    (l.filter (fun p => p.1 != k)).lookup k = none := by
  induction l with
  | nil => rfl
  | cons p rest ih =>
      by_cases hpk : p.1 = k
      · simp [List.filter_cons, hpk, ih]
      · have hb : (p.1 != k) = true := by simp [bne_iff_ne, hpk]
        have hk : (k == p.1) = false := by
          simp [beq_eq_false_iff_ne]
          exact fun h => hpk h.symm
        rw [List.filter_cons]
        simp only [hb, if_true]
        rw [List.lookup_cons, hk]
        exact ih

theorem not_mem_map_fst_filter_ne (l : List (String × Nat)) (k : String) :
    k ∉ (l.filter (fun p => p.1 != k)).map (fun p => p.1) := by
  intro hmem
  obtain ⟨p, hp, hpk⟩ := List.mem_map.mp hmem
  have := List.of_mem_filter hp
  simp [hpk] at this

theorem read_worker_messages_removes (wid : String) :
    ∀ (events : List ReadEvent) (st : IpcServerState),
      (read_worker_messages wid events st).workers.lookup wid = none ∧
      wid ∉ (read_worker_messages wid events st).workers.map (fun p => p.1) := by
  intro events
  induction events with
  | nil =>
      intro st
      exact ⟨lookup_filter_ne_self st.workers wid,
        not_mem_map_fst_filter_ne st.workers wid⟩
  | cons ev rest ih =>
      intro st
      match ev with
      | .ioError =>
          exact ⟨lookup_filter_ne_self st.workers wid,
            not_mem_map_fst_filter_ne st.workers wid⟩
      | .line none => exact ih st
      | .line (some m) => exact ih _

/-! ## Claim theorems -/

/-- C1: receiving one `Cancel` message sets the cancellation flag and
resolves every permission request currently in the pending table to `Abort`,
leaving the pending table empty; after that, every subsequent
`request_permission` call fails immediately with `Cancelled` and sends no
`PermissionRequest` frame. -/
theorem cancel_drains_pending_and_blocks_requests
    (st st' : IpcClientState) (id : String) (ts : Nat) (reason : Option String)
    (hrun : handle_commander_message (.Cancel id ts reason) st = st') :
    st'.cancelled = true ∧
    st'.pending = [] ∧
    (∀ rid, rid ∈ st.pending →
      (rid, PermissionResult.Abort) ∈ st'.resolutions) ∧
    (∀ conf msgId freshId ts2 writeOk outcome,
      request_permission st' conf msgId freshId ts2 writeOk outcome =
        (.error .Cancelled, st', [])) := by
  subst hrun
  refine ⟨rfl, rfl, ?_, ?_⟩
  · intro rid hrid
    simp only [handle_commander_message, List.mem_append, List.mem_map]
    exact Or.inr ⟨rid, hrid, rfl⟩
  · intro conf msgId freshId ts2 writeOk outcome
    simp [request_permission, handle_commander_message]

/-- C2: for an accepted ack in the slot, `handshake` returns a merged ack:
each policy list is the ack's when non-empty and the local config's when
empty, and `timeout_ms` is the config's when the ack reports zero and the
ack's value otherwise. -/
theorem handshake_merges_ack_with_config
    (st : IpcClientState) (config : WorkerConfig) (ws : WorkspaceInfo)
    (msgId : String) (ts : Nat) (a : HandshakeAck)
    (hconn : st.connected = true) (hack : st.handshakeAck = some a)
    (hacc : a.accepted = true) :
    ∃ merged,
      (handshake st config ws msgId ts true).1 = .ok merged ∧
      merged.accepted = true ∧
      merged.auto_approve =
        (if a.auto_approve = [] then config.auto_approve
         else a.auto_approve) ∧
      merged.dangerous_patterns =
        (if a.dangerous_patterns = [] then config.dangerous_patterns
         else a.dangerous_patterns) ∧
      merged.timeout_ms =
        (if a.timeout_ms = 0 then config.timeout_ms else a.timeout_ms) := by
  refine ⟨⟨true,
      if a.auto_approve.isEmpty then config.auto_approve else a.auto_approve,
      if a.dangerous_patterns.isEmpty then config.dangerous_patterns
        else a.dangerous_patterns,
      if a.timeout_ms = 0 then config.timeout_ms else a.timeout_ms,
      none⟩, ?_, rfl, ?_, ?_, ?_⟩
  · simp [handshake, hconn, hack, hacc]
  · by_cases h : a.auto_approve = [] <;> simp [h, List.isEmpty_iff]
  · by_cases h : a.dangerous_patterns = [] <;> simp [h, List.isEmpty_iff]
  · rfl

/-- C3: with an empty ack slot, `handshake` returns a fully-accepted ack
whose policy lists and timeout are taken entirely from the local
`WorkerConfig`. -/
theorem handshake_no_ack_falls_back_to_config
    (st : IpcClientState) (config : WorkerConfig) (ws : WorkspaceInfo)
    (msgId : String) (ts : Nat)
    (hconn : st.connected = true) (hack : st.handshakeAck = none) :
    (handshake st config ws msgId ts true).1 =
      .ok ⟨true, config.auto_approve, config.dangerous_patterns,
        config.timeout_ms, none⟩ := by
  simp [handshake, hconn, hack]

/-- C4: with a rejected ack (`accepted = false`) in the slot, `handshake`
fails with `HandshakeFailed` carrying the ack's reason and returns no merged
ack. -/
theorem handshake_rejected_fails_with_reason
    (st : IpcClientState) (config : WorkerConfig) (ws : WorkspaceInfo)
    (msgId : String) (ts : Nat) (a : HandshakeAck) (r : String)
    (hconn : st.connected = true) (hack : st.handshakeAck = some a)
    (hacc : a.accepted = false) (hr : a.reason = some r) :
    (handshake st config ws msgId ts true).1 =
      .error (.HandshakeFailed r) := by
  simp [handshake, hconn, hack, hacc, hr, Option.getD]

/-- C10: `handshake` takes (consumes) the ack slot, leaving it empty; a
second `handshake` call with no new ack behaves as if no ack ever arrived,
returning the locally-derived accepted ack built entirely from the config. -/
theorem handshake_consumes_ack_slot
    (st : IpcClientState) (config config2 : WorkerConfig)
    (ws ws2 : WorkspaceInfo) (msgId msgId2 : String) (ts ts2 : Nat)
    (hconn : st.connected = true) :
    (handshake st config ws msgId ts true).2.1.handshakeAck = none ∧
    (handshake (handshake st config ws msgId ts true).2.1
        config2 ws2 msgId2 ts2 true).1 =
      .ok ⟨true, config2.auto_approve, config2.dangerous_patterns,
        config2.timeout_ms, none⟩ := by
  rcases hax : st.handshakeAck with _ | a
  · constructor <;> simp [handshake, hconn, hax]
  · rcases hacc : a.accepted with _ | _ <;>
      constructor <;> simp [handshake, hconn, hax, hacc]

/-- C6: `request_permission` registers a completion slot keyed by the fresh
`request_id`, sends the `PermissionRequest` frame, and waits at most
`request_permission_timeout_secs = 300` seconds: a resolved slot yields that
`PermissionResult`, an elapsed bound yields `PermissionTimeout`, and a
completion channel closed without a value yields `ChannelClosed`. -/
theorem request_permission_waits_bounded
    (st st' : IpcClientState) (conf : ToolConfirmation)
    (msgId freshId : String) (ts : Nat) (outcome : WaitOutcome)
    (res : Except IpcClientError PermissionResult) (sent : List WorkerMessage)
    (hcan : st.cancelled = false) (hconn : st.connected = true)
    (hrun : request_permission st conf msgId freshId ts true outcome =
      (res, st', sent)) :
    freshId ∈ st'.pending ∧
    sent = [WorkerMessage.PermissionRequest msgId ts freshId conf.tool_name
      conf.input conf.is_dangerous conf.danger_reason] ∧
    (∀ r, outcome = .resolved r → res = .ok r) ∧
    (outcome = .elapsed → res = .error .PermissionTimeout) ∧
    (outcome = .closed → res = .error .ChannelClosed) ∧
    request_permission_timeout_secs = 300 := by
  rcases outcome with r | _ | _ <;>
    · simp only [request_permission, hcan, hconn] at hrun
      simp only [Bool.false_eq_true, if_false, reduceCtorEq, reduceIte] at hrun
      obtain ⟨h1, h2, h3⟩ := Prod.mk.injEq .. ▸ hrun
      refine ⟨?_, ?_, ?_, ?_, ?_, rfl⟩ <;>
        simp_all [List.mem_insert_self, request_permission_timeout_secs]

/-- C5: `accept` requires the single opening frame to decode as `Handshake`;
every decoded non-`Handshake` first frame is rejected with
`InvalidHandshake`, and on a `Handshake` the write half is registered under
`worker_id` (overwriting any prior entry) and the handshake message is
published on the delivery channel before the worker id is returned. -/
theorem accept_requires_handshake_and_registers
    (st : IpcServerState) (msg : WorkerMessage) (h : Nat)
    (hstart : st.started = true) :
    (isHandshakeMsg msg = false →
      accept st (some msg) h = (.error .InvalidHandshake, st)) ∧
    (∀ id ts wid wp br task model provider,
      msg = .Handshake id ts wid wp br task model provider →
      ∃ st', accept st (some msg) h = (.ok wid, st') ∧
        st'.workers.lookup wid = some h ∧
        st'.delivered = st.delivered ++ [(wid, msg)]) := by
  constructor
  · intro hnh
    simp [accept, hstart, hnh]
  · rintro id ts wid wp br task model provider rfl
    refine ⟨{ st with
        workers := insertWorker st.workers wid h
        delivered := st.delivered ++
          [(wid, WorkerMessage.Handshake id ts wid wp br task model
            provider)] }, ?_, ?_, rfl⟩
    · simp [accept, hstart, isHandshakeMsg, handshakeWorkerId]
    · simp [insertWorker, List.lookup_cons]

/-- C7: server `send` fails with `WorkerNotConnected` exactly when the worker
id is absent from the registry; a failed write or flush for a registered
worker surfaces as an I/O error, and in every case the registry is left
unchanged, so the worker remains registered after a failed send. -/
theorem send_absent_iff_not_connected_and_registry_unchanged
    (st : IpcServerState) (wid : String) (msg : CommanderMessage)
    (writeOk flushOk : Bool) :
    (send st wid msg writeOk flushOk).2 = st ∧
    ((send st wid msg writeOk flushOk).1 =
        .error (.WorkerNotConnected wid) ↔
      st.workers.lookup wid = none) ∧
    (∀ w, st.workers.lookup wid = some w → writeOk = false →
      (send st wid msg writeOk flushOk).1 = .error (.Io "sending message")) ∧
    (∀ w, st.workers.lookup wid = some w → writeOk = true → flushOk = false →
      (send st wid msg writeOk flushOk).1 = .error (.Io "flushing writer")) := by
  rcases hl : st.workers.lookup wid with _ | w
  · simp [send, hl]
  · rcases writeOk with _ | _ <;> rcases flushOk with _ | _ <;>
      simp [send, hl]

/-- C8: `broadcast` attempts a write to every currently registered worker —
one worker's write failure never prevents the attempt on any other — and for
every registry state, the empty one included, the call returns success. -/
theorem broadcast_attempts_all_and_succeeds
    (st : IpcServerState) (msg : CommanderMessage)
    (writeOk : String → Bool) :
    (broadcast st msg writeOk).1 = .ok () ∧
    (broadcast st msg writeOk).2.1 = st.workers.map (fun p => p.1) := by
  have key : ∀ (ws : List (String × Nat)) (acc fail : List String),
      (broadcastLoop ws writeOk acc fail).1 = acc ++ ws.map (fun p => p.1) := by
    intro ws
    induction ws with
    | nil => intro acc fail; simp [broadcastLoop]
    | cons p rest ih =>
        intro acc fail
        rcases hw : writeOk p.1 with _ | _ <;>
          simp [broadcastLoop, hw, ih]
  constructor
  · simp [broadcast]
  · simpa [broadcast] using key st.workers [] []

/-- C9: the server's per-connection read loop skips a malformed line and
continues — it never terminates the connection, and a subsequent well-formed
frame on the same connection is still published; only EOF or an I/O read
error terminates the loop, and on every termination the worker is removed
from the registry, so `is_connected` is false and `connected_workers` no
longer contains the id. -/
theorem read_loop_skips_malformed_and_removes_on_exit
    (wid : String) (st : IpcServerState) (m : WorkerMessage)
    (rest events : List ReadEvent) :
    (read_worker_messages wid (.line none :: rest) st =
      read_worker_messages wid rest st) ∧
    (is_connected (read_worker_messages wid events st) wid = false) ∧
    (wid ∉ connected_workers (read_worker_messages wid events st)) ∧
    ((wid, m) ∈
      (read_worker_messages wid [.line none, .line (some m)] st).delivered) := by
  obtain ⟨hlk, hmap⟩ := read_worker_messages_removes wid events st
  refine ⟨rfl, ?_, ?_, ?_⟩
  · simp [is_connected, hlk]
  · simpa [connected_workers] using hmap
  · simp [read_worker_messages]

/-! ## Concrete witnesses -/

/-- Witness for C1 at two in-flight requests `r1`, `r2`. -/
theorem cancel_drains_pending_witness :
    (handle_commander_message (.Cancel "c1" 0 none)
        ⟨"w1", true, ["r1", "r2"], false, none, []⟩).cancelled = true ∧
    ("r1", PermissionResult.Abort) ∈
      (handle_commander_message (.Cancel "c1" 0 none)
        ⟨"w1", true, ["r1", "r2"], false, none, []⟩).resolutions ∧
    ("r2", PermissionResult.Abort) ∈
      (handle_commander_message (.Cancel "c1" 0 none)
        ⟨"w1", true, ["r1", "r2"], false, none, []⟩).resolutions ∧
    request_permission
        (handle_commander_message (.Cancel "c1" 0 none)
          ⟨"w1", true, ["r1", "r2"], false, none, []⟩)
        ⟨"bash", "rm -rf /", true, some "destructive"⟩ "m9" "r9" 0 true
        .elapsed =
      (.error .Cancelled,
       handle_commander_message (.Cancel "c1" 0 none)
         ⟨"w1", true, ["r1", "r2"], false, none, []⟩, []) := by
  obtain ⟨h1, _, h3, h4⟩ :=
    cancel_drains_pending_and_blocks_requests
      ⟨"w1", true, ["r1", "r2"], false, none, []⟩ _ "c1" 0 none rfl
  exact ⟨h1, h3 "r1" (by simp), h3 "r2" (by simp),
    h4 ⟨"bash", "rm -rf /", true, some "destructive"⟩ "m9" "r9" 0 true
      .elapsed⟩

/-- Witness for C2 at the spec's own example: empty server lists and zero
timeout fall back to `auto_approve = ["read_file"]`, `timeout_ms = 5000`. -/
theorem handshake_merge_witness :
    ∃ merged,
      (handshake
          ⟨"w1", true, [], false, some ⟨true, [], [], 0, none⟩, []⟩
          ⟨"t", "m", "p", ["read_file"], ["rm -rf"], 5000⟩
          (.GitWorktree "/w" "feat/x" "main") "m1" 0 true).1 = .ok merged ∧
      merged.accepted = true ∧
      merged.auto_approve =
        (if ([] : List String) = [] then ["read_file"] else []) ∧
      merged.dangerous_patterns =
        (if ([] : List String) = [] then ["rm -rf"] else []) ∧
      merged.timeout_ms = (if (0 : Nat) = 0 then 5000 else 0) :=
  handshake_merges_ack_with_config
    ⟨"w1", true, [], false, some ⟨true, [], [], 0, none⟩, []⟩
    ⟨"t", "m", "p", ["read_file"], ["rm -rf"], 5000⟩
    (.GitWorktree "/w" "feat/x" "main") "m1" 0
    ⟨true, [], [], 0, none⟩ rfl rfl rfl

/-- Witness for C3: an empty ack slot yields the local config's policy. -/
theorem handshake_local_fallback_witness :
    (handshake ⟨"w1", true, [], false, none, []⟩
        ⟨"t", "m", "p", ["read_file"], ["rm -rf"], 5000⟩
        (.GitWorktree "/w" "feat/x" "main") "m1" 0 true).1 =
      .ok ⟨true, ["read_file"], ["rm -rf"], 5000, none⟩ :=
  handshake_no_ack_falls_back_to_config
    ⟨"w1", true, [], false, none, []⟩
    ⟨"t", "m", "p", ["read_file"], ["rm -rf"], 5000⟩
    (.GitWorktree "/w" "feat/x" "main") "m1" 0 rfl rfl

/-- Witness for C4 at the spec's own example reason "quota exceeded". -/
theorem handshake_rejected_witness :
    (handshake
        ⟨"w1", true, [], false,
          some ⟨false, [], [], 0, some "quota exceeded"⟩, []⟩
        ⟨"t", "m", "p", [], [], 0⟩ (.GitWorktree "/w" "b" "main")
        "m1" 0 true).1 =
      .error (.HandshakeFailed "quota exceeded") :=
  handshake_rejected_fails_with_reason
    ⟨"w1", true, [], false,
      some ⟨false, [], [], 0, some "quota exceeded"⟩, []⟩
    ⟨"t", "m", "p", [], [], 0⟩ (.GitWorktree "/w" "b" "main") "m1" 0
    ⟨false, [], [], 0, some "quota exceeded"⟩ "quota exceeded"
    rfl rfl rfl rfl

/-- Witness for C10: a second `handshake` after one consuming call ignores
the commander's previously supplied policy and returns the local one. -/
theorem handshake_consumes_witness :
    (handshake
        ⟨"w1", true, [], false, some ⟨true, ["x"], ["y"], 7, none⟩, []⟩
        ⟨"t", "m", "p", ["x"], ["y"], 7⟩ (.GitWorktree "/w" "b" "main")
        "m1" 0 true).2.1.handshakeAck = none ∧
    (handshake
        (handshake
          ⟨"w1", true, [], false, some ⟨true, ["x"], ["y"], 7, none⟩, []⟩
          ⟨"t", "m", "p", ["x"], ["y"], 7⟩ (.GitWorktree "/w" "b" "main")
          "m1" 0 true).2.1
        ⟨"t2", "m2", "p2", ["a"], ["b"], 9⟩ (.GitWorktree "/w" "b" "main")
        "m2" 1 true).1 =
      .ok ⟨true, ["a"], ["b"], 9, none⟩ :=
  handshake_consumes_ack_slot
    ⟨"w1", true, [], false, some ⟨true, ["x"], ["y"], 7, none⟩, []⟩
    ⟨"t", "m", "p", ["x"], ["y"], 7⟩ ⟨"t2", "m2", "p2", ["a"], ["b"], 9⟩
    (.GitWorktree "/w" "b" "main") (.GitWorktree "/w" "b" "main")
    "m1" "m2" 0 1 rfl

/-- Witness for C6 at an unanswered request: the slot is registered, the
frame sent, and the elapsed 300-second bound yields `PermissionTimeout`. -/
theorem request_permission_timeout_witness :
    "r1" ∈ (⟨"w1", true, ["r1"], false, none, []⟩ : IpcClientState).pending ∧
    request_permission_timeout_secs = 300 ∧
    (∀ r : PermissionResult, WaitOutcome.elapsed = .resolved r →
      (Except.error .PermissionTimeout :
        Except IpcClientError PermissionResult) = .ok r) := by
  have h := request_permission_waits_bounded
    ⟨"w1", true, [], false, none, []⟩ ⟨"w1", true, ["r1"], false, none, []⟩
    ⟨"bash", "ls", false, none⟩ "m1" "r1" 0 .elapsed
    (.error .PermissionTimeout)
    [.PermissionRequest "m1" 0 "r1" "bash" "ls" false none]
    rfl rfl rfl
  exact ⟨h.1, h.2.2.2.2.2, h.2.2.1⟩

/-- Witness for C5: a decoded `Pong` first frame is rejected with
`InvalidHandshake`; a `Handshake` from `w1` overwrites the stale entry for
`w1` and is published on the delivery channel. -/
theorem accept_witness :
    accept ⟨true, [("w1", 3)], []⟩ (some (.Pong "p" 0)) 7 =
      (.error .InvalidHandshake, ⟨true, [("w1", 3)], []⟩) ∧
    (∃ st', accept ⟨true, [("w1", 3)], []⟩
        (some (.Handshake "h" 0 "w1" "/w" "b" "t" "m" "p")) 7 =
        (.ok "w1", st') ∧
      st'.workers.lookup "w1" = some 7 ∧
      st'.delivered =
        ([] : List (String × WorkerMessage)) ++
          [("w1", .Handshake "h" 0 "w1" "/w" "b" "t" "m" "p")]) := by
  have h1 := accept_requires_handshake_and_registers
    ⟨true, [("w1", 3)], []⟩ (.Pong "p" 0) 7 rfl
  have h2 := accept_requires_handshake_and_registers
    ⟨true, [("w1", 3)], []⟩ (.Handshake "h" 0 "w1" "/w" "b" "t" "m" "p") 7 rfl
  exact ⟨h1.1 rfl, h2.2 "h" 0 "w1" "/w" "b" "t" "m" "p" rfl⟩

/-- Witness for C7: a failed write to registered `w1` surfaces as an I/O
error with the registry unchanged; sending to unknown `w2` fails with
`WorkerNotConnected`. -/
theorem send_witness :
    (send ⟨true, [("w1", 3)], []⟩ "w1" (.Ping "p" 0) false true).2 =
      (⟨true, [("w1", 3)], []⟩ : IpcServerState) ∧
    (send ⟨true, [("w1", 3)], []⟩ "w1" (.Ping "p" 0) false true).1 =
      .error (.Io "sending message") ∧
    (send ⟨true, [], []⟩ "w2" (.Ping "p" 0) true true).1 =
      .error (.WorkerNotConnected "w2") := by
  have h1 := send_absent_iff_not_connected_and_registry_unchanged
    ⟨true, [("w1", 3)], []⟩ "w1" (.Ping "p" 0) false true
  have h2 := send_absent_iff_not_connected_and_registry_unchanged
    ⟨true, [], []⟩ "w2" (.Ping "p" 0) true true
  exact ⟨h1.1, h1.2.2.1 3 rfl rfl, h2.2.1.mpr rfl⟩

/-- Witness for C8: broadcasting to zero workers succeeds, and a failing
write to `w1` does not prevent the attempt on `w2`. -/
theorem broadcast_witness :
    (broadcast ⟨true, [], []⟩ (.Ping "p" 0) (fun _ => true)).1 = .ok () ∧
    (broadcast ⟨true, [("w1", 1), ("w2", 2)], []⟩ (.Ping "p" 0)
        (fun wid => wid != "w1")).2.1 = ["w1", "w2"] := by
  have h1 := broadcast_attempts_all_and_succeeds
    ⟨true, [], []⟩ (.Ping "p" 0) (fun _ => true)
  have h2 := broadcast_attempts_all_and_succeeds
    ⟨true, [("w1", 1), ("w2", 2)], []⟩ (.Ping "p" 0)
    (fun wid => wid != "w1")
  exact ⟨h1.1, h2.2⟩

/-- Witness for C9: one malformed line then a valid `Pong` on `w1`'s
connection — the `Pong` is still delivered, and after EOF the worker is
deregistered. -/
theorem read_loop_witness :
    is_connected
      (read_worker_messages "w1" [.line none, .line (some (.Pong "p" 0))]
        ⟨true, [("w1", 5)], []⟩) "w1" = false ∧
    ("w1", WorkerMessage.Pong "p" 0) ∈
      (read_worker_messages "w1" [.line none, .line (some (.Pong "p" 0))]
        ⟨true, [("w1", 5)], []⟩).delivered := by
  have h := read_loop_skips_malformed_and_removes_on_exit "w1"
    ⟨true, [("w1", 5)], []⟩ (.Pong "p" 0) []
    [.line none, .line (some (.Pong "p" 0))]
  exact ⟨h.2.1, h.2.2.2⟩

end Codi
